import Mathlib

/-!
# Verification of the maplibre-precipitation rendering kernel

Shallow embedding (over `ℝ`) of the fragment-shader mathematics in
`src/js/shaders.js` and of the layer state machine in
`src/js/precipitation-layer.js`, together with theorems settling the
frozen claims about the natural-language specification.

The shader is straight-line real arithmetic plus transcendental
functions, so every GLSL function is translated to a Lean function on
`ℝ` with the same structure and the same literal constants (in
particular the shader's `PI = 3.14159265359` and the separate literal
`3.14159` appearing in the falloff formula are kept as written).
-/

namespace Precip

/-- GLSL constant `PI` declared at the top of the fragment shader
(`const float PI = 3.14159265359;`). -/
noncomputable def GLSL_PI : ℝ := 3.14159265359

/-- GLSL constant `EARTH_RADIUS` (`const float EARTH_RADIUS = 6371.0;`, km). -/
noncomputable def EARTH_RADIUS : ℝ := 6371

/-- A geographic position `[lng, lat]` in degrees (a GLSL `vec2`). -/
structure Geo where
  lng : ℝ
  lat : ℝ

/-- One entry of the `u_points` uniform array: `[lng, lat, value]`
(a GLSL `vec3`). -/
structure Pt3 where
  lng : ℝ
  lat : ℝ
  value : ℝ

/-- Shader `degToRad`: `deg * PI / 180.0` (uses the shader's `PI` constant). -/
noncomputable def degToRad (deg : ℝ) : ℝ := deg * GLSL_PI / 180

/-- Shader `lngToMercatorX`: `(lng + 180.0) / 360.0`. -/
noncomputable def lngToMercatorX (lng : ℝ) : ℝ := (lng + 180) / 360

/-- Shader `latToMercatorY`:
`(PI - log(tan(PI / 4.0 + latRad / 2.0))) / (2.0 * PI)`. -/
noncomputable def latToMercatorY (lat : ℝ) : ℝ :=
  (GLSL_PI - Real.log (Real.tan (GLSL_PI / 4 + degToRad lat / 2))) / (2 * GLSL_PI)

/-- Shader `mercatorYToLat`:
`latRad = 2.0 * (atan(exp(PI * (1.0 - 2.0 * y))) - PI / 4.0)`,
returned as degrees `latRad * 180.0 / PI`. -/
noncomputable def mercatorYToLat (y : ℝ) : ℝ :=
  2 * (Real.arctan (Real.exp (GLSL_PI * (1 - 2 * y))) - GLSL_PI / 4) * 180 / GLSL_PI

/-- Shader `mercatorXToLng`: `x * 360.0 - 180.0`. -/
noncomputable def mercatorXToLng (x : ℝ) : ℝ := x * 360 - 180

/-- The composition `geoToMercatorUnit` named in the specification:
degrees to the Web Mercator unit square, via the shader's
`lngToMercatorX` and `latToMercatorY`. -/
noncomputable def geoToMercatorUnit (lng lat : ℝ) : ℝ × ℝ :=
  (lngToMercatorX lng, latToMercatorY lat)

/-- The composition `mercatorUnitToGeo` named in the specification:
Web Mercator unit square back to degrees, via the shader's
`mercatorXToLng` and `mercatorYToLat`. -/
noncomputable def mercatorUnitToGeo (p : ℝ × ℝ) : ℝ × ℝ :=
  (mercatorXToLng p.1, mercatorYToLat p.2)

/-- Shader `lngDifference`: naive difference `lng2 - lng1`, then the two
sequential corrections `if (diff > 180.0) diff -= 360.0;`
and `if (diff < -180.0) diff += 360.0;`. -/
noncomputable def lngDifference (lng1 lng2 : ℝ) : ℝ :=
  let diff := lng2 - lng1
  let diff1 := if diff > 180 then diff - 360 else diff
  if diff1 < -180 then diff1 + 360 else diff1

/-- GLSL two-argument `atan(y, x)`.  The shader only ever calls it with
`x = sqrt(1.0 - a) ≥ 0`; for `x > 0` GLSL specifies `atan(y / x)`, and
the remaining branches follow the usual atan2 quadrant convention. -/
noncomputable def glslAtan2 (y x : ℝ) : ℝ :=
  if 0 < x then Real.arctan (y / x)
  else if x = 0 then
    (if 0 < y then Real.pi / 2 else if y < 0 then -(Real.pi / 2) else 0)
  else if 0 ≤ y then Real.arctan (y / x) + Real.pi
  else Real.arctan (y / x) - Real.pi

/-- Shader `haversineDistance` (kilometers), exactly as written:
`a = sin(dLat/2)*sin(dLat/2) + cos(lat1)*cos(lat2)*sin(dLng/2)*sin(dLng/2)`,
`c = 2.0 * atan(sqrt(a), sqrt(1.0 - a))`, result `EARTH_RADIUS * c`,
with the longitude term built from `lngDifference`. -/
noncomputable def haversineDistance (point1 point2 : Geo) : ℝ :=
  let lat1 := degToRad point1.lat
  let lat2 := degToRad point2.lat
  let dLat := degToRad (point2.lat - point1.lat)
  let lngDiff := lngDifference point1.lng point2.lng
  let dLng := degToRad lngDiff
  let a := Real.sin (dLat / 2) * Real.sin (dLat / 2) +
    Real.cos lat1 * Real.cos lat2 * Real.sin (dLng / 2) * Real.sin (dLng / 2)
  let c := 2 * glslAtan2 (Real.sqrt a) (Real.sqrt (1 - a))
  EARTH_RADIUS * c

/-- The function `degToRad` is odd (it is a scaling by the constant `PI / 180`). -/
lemma degToRad_neg (x : ℝ) : degToRad (-x) = -degToRad x := by
  unfold degToRad; ring

/-- Swapping the arguments of the shader's `lngDifference` negates the
result, in every branch of the two corrections. -/
lemma lngDifference_antisymm (a b : ℝ) :
    lngDifference a b = -lngDifference b a := by
  simp only [lngDifference]
  split_ifs <;> linarith

/-- Claim C8 counterexample: on the in-range inputs `a = 0`, `b = -180`
the shader's `lngDifference` returns `-180`, which does not lie in the
half-open interval `(-180, 180]` asserted by the claim. -/
theorem lngDifference_boundary_counterexample :
    lngDifference 0 (-180) = -180 ∧ ¬ (-180 < lngDifference 0 (-180)) := by
  constructor
  · simp only [lngDifference]
    norm_num
  · simp only [lngDifference]
    norm_num

/-- Claim C8 (amended): for longitudes `a, b ∈ [-180, 180]` the shader's
`lngDifference` lands in the closed interval `[-180, 180]` (both
endpoints are attainable, so the interval is closed, not half-open), it
equals the naive difference `b - a` corrected by `±360`, and no
correction is applied when the naive difference is already within
`[-180, 180]`. -/
theorem lngDifference_closed_range (a b : ℝ)
    (ha1 : -180 ≤ a) (ha2 : a ≤ 180) (hb1 : -180 ≤ b) (hb2 : b ≤ 180) :
    (-180 ≤ lngDifference a b ∧ lngDifference a b ≤ 180) ∧
    (lngDifference a b = b - a ∨ lngDifference a b = b - a - 360 ∨
      lngDifference a b = b - a + 360) ∧
    ((-180 ≤ b - a ∧ b - a ≤ 180) → lngDifference a b = b - a) := by
  simp only [lngDifference]
  split_ifs with h1 h2 h3
  · exact absurd h2 (by push_neg; linarith)
  · refine ⟨⟨by linarith, by linarith⟩, Or.inr (Or.inl rfl), ?_⟩
    rintro ⟨-, h⟩
    linarith
  · refine ⟨⟨by linarith, by linarith⟩, Or.inr (Or.inr rfl), ?_⟩
    rintro ⟨h, -⟩
    linarith
  · exact ⟨⟨by linarith, by linarith⟩, Or.inl rfl, fun _ => rfl⟩

/-- Concrete instantiation of the amended claim C8 at `a = 170`,
`b = -170`: the wrap correction fires and yields `20`. -/
theorem lngDifference_closed_range_witness :
    ((-180 ≤ lngDifference 170 (-170) ∧ lngDifference 170 (-170) ≤ 180) ∧
    (lngDifference 170 (-170) = -170 - 170 ∨
      lngDifference 170 (-170) = -170 - 170 - 360 ∨
      lngDifference 170 (-170) = -170 - 170 + 360) ∧
    ((-180 ≤ (-170 : ℝ) - 170 ∧ (-170 : ℝ) - 170 ≤ 180) →
      lngDifference 170 (-170) = -170 - 170)) :=
  lngDifference_closed_range 170 (-170)
    (by norm_num) (by norm_num) (by norm_num) (by norm_num)

/-- The shader's haversine distance is symmetric: negating both the
latitude difference and the wrap-aware longitude difference leaves the
squared-sine terms unchanged. -/
lemma haversine_symm (P Q : Geo) :
    haversineDistance P Q = haversineDistance Q P := by
  simp only [haversineDistance]
  rw [lngDifference_antisymm P.lng Q.lng,
    show P.lat - Q.lat = -(Q.lat - P.lat) by ring,
    degToRad_neg, degToRad_neg]
  simp only [neg_div, Real.sin_neg]
  ring_nf

/-- The shader's haversine distance from a point to itself is `0`. -/
lemma haversine_self (P : Geo) : haversineDistance P P = 0 := by
  have h0 : lngDifference P.lng P.lng = 0 := by
    simp only [lngDifference]; norm_num
  simp only [haversineDistance, sub_self, h0]
  norm_num [degToRad, glslAtan2, Real.arctan_zero]

/-- Closed form for the shader's haversine distance between
`(179.9, 0)` and `(-179.9, 0)`: the wrap correction reduces the
longitude difference to `0.2°`, and on the equator the half-angle
computation is exact, giving `6371 · PI / 900` km (≈ 22.24 km). -/
lemma haversine_antimeridian :
    haversineDistance ⟨179.9, 0⟩ ⟨-179.9, 0⟩ = 6371 * GLSL_PI / 900 := by
  have hlng : lngDifference 179.9 (-179.9) = 0.2 := by
    simp only [lngDifference]; norm_num
  have hPI : GLSL_PI = 3.14159265359 := rfl
  set h : ℝ := degToRad 0.2 / 2 with hh
  have hval : h = GLSL_PI / 1800 := by
    rw [hh]; unfold degToRad; ring
  have hpos : 0 < h := by rw [hval, hPI]; norm_num
  have hlt : h < 1.5 := by rw [hval, hPI]; norm_num
  have hpi2 : h < Real.pi / 2 := lt_of_lt_of_le hlt (by linarith [Real.pi_gt_three])
  have hpi : h < Real.pi := lt_of_lt_of_le hlt (by linarith [Real.pi_gt_three])
  have hsin : 0 ≤ Real.sin h := (Real.sin_pos_of_pos_of_lt_pi hpos hpi).le
  have hcos : 0 < Real.cos h :=
    Real.cos_pos_of_mem_Ioo ⟨by linarith, hpi2⟩
  have hsq : (1 : ℝ) - Real.sin h * Real.sin h = Real.cos h * Real.cos h := by
    have hsc := Real.sin_sq_add_cos_sq h
    rw [pow_two, pow_two] at hsc
    linarith
  simp only [haversineDistance, hlng]
  rw [show (0 : ℝ) - 0 = 0 by ring]
  rw [show degToRad 0 = 0 by unfold degToRad; ring]
  rw [← hh]
  simp only [zero_div, Real.sin_zero, Real.cos_zero, zero_mul, one_mul, zero_add]
  rw [Real.sqrt_mul_self hsin, hsq, Real.sqrt_mul_self hcos.le]
  rw [glslAtan2, if_pos hcos, ← Real.tan_eq_sin_div_cos,
    Real.arctan_tan (by linarith) hpi2, hval]
  unfold EARTH_RADIUS
  ring

/-- Claim C4: the shader's `haversineDistance` is symmetric, vanishes on
equal points, and the distance between `(179.9, 0)` and `(-179.9, 0)` is
about 22 km (between 22 and 23 km), not half the Earth's circumference,
because the longitude term goes through the wrap-aware `lngDifference`. -/
theorem haversine_symm_self_antimeridian :
    (∀ P Q : Geo, haversineDistance P Q = haversineDistance Q P) ∧
    (∀ P : Geo, haversineDistance P P = 0) ∧
    (22 < haversineDistance ⟨179.9, 0⟩ ⟨-179.9, 0⟩ ∧
      haversineDistance ⟨179.9, 0⟩ ⟨-179.9, 0⟩ < 23) := by
  refine ⟨haversine_symm, haversine_self, ?_, ?_⟩ <;>
    rw [haversine_antimeridian] <;> norm_num [GLSL_PI]

/-- The longitude leg of the projection round trip is exact for every
input: `mercatorXToLng` is the exact inverse of `lngToMercatorX`. -/
lemma lng_round_trip (lng : ℝ) : mercatorXToLng (lngToMercatorX lng) = lng := by
  unfold mercatorXToLng lngToMercatorX; ring

/-- The latitude leg of the projection round trip is exact for
`|lat| < 85`: the shader's `exp` cancels its `log` (the tangent is
positive there) and `atan` cancels `tan` (the angle stays inside
`(-π/2, π/2)`). -/
lemma lat_round_trip (lat : ℝ) (hlat : |lat| < 85) :
    mercatorYToLat (latToMercatorY lat) = lat := by
  obtain ⟨h1, h2⟩ := abs_lt.mp hlat
  have hPI : GLSL_PI = 3.14159265359 := rfl
  have hG : GLSL_PI ≠ 0 := by rw [hPI]; norm_num
  obtain ⟨θ, hθ⟩ : ∃ t : ℝ, t = GLSL_PI / 4 + degToRad lat / 2 := ⟨_, rfl⟩
  have hθval : θ = GLSL_PI / 4 + lat * GLSL_PI / 360 := by
    rw [hθ]; unfold degToRad; ring
  have hθlo : 0 < θ := by rw [hθval, hPI]; linarith
  have hθhi : θ < 1.528 := by rw [hθval, hPI]; linarith
  have hθpi2 : θ < Real.pi / 2 :=
    lt_of_lt_of_le hθhi (by linarith [Real.pi_gt_d6])
  have hθneg : -(Real.pi / 2) < θ := by
    have hpi := Real.pi_pos
    linarith
  have htan : 0 < Real.tan θ := Real.tan_pos_of_pos_of_lt_pi_div_two hθlo hθpi2
  have harg : GLSL_PI * (1 - 2 * latToMercatorY lat) =
      Real.log (Real.tan θ) := by
    unfold latToMercatorY
    rw [← hθ]
    field_simp
    ring
  have hexp : Real.exp (GLSL_PI * (1 - 2 * latToMercatorY lat)) = Real.tan θ := by
    rw [harg, Real.exp_log htan]
  unfold mercatorYToLat
  rw [hexp, Real.arctan_tan hθneg hθpi2, hθval]
  field_simp
  ring

/-- Claim C7: for `|lng| ≤ 180` and `|lat| < 85`, the projection round
trip `mercatorUnitToGeo ∘ geoToMercatorUnit` reproduces the input
exactly (in real arithmetic, hence within any floating-point
tolerance). -/
theorem mercator_round_trip (lng lat : ℝ)
    (hlng : |lng| ≤ 180) (hlat : |lat| < 85) :
    mercatorUnitToGeo (geoToMercatorUnit lng lat) = (lng, lat) := by
  unfold mercatorUnitToGeo geoToMercatorUnit
  dsimp only
  rw [lng_round_trip, lat_round_trip lat hlat]

/-- Concrete instantiation of claim C7 at `lng = 12`, `lat = 59`
(inside the Norwegian demo viewport). -/
theorem mercator_round_trip_witness :
    mercatorUnitToGeo (geoToMercatorUnit 12 59) = (12, 59) :=
  mercator_round_trip 12 59 (by norm_num) (by norm_num)

/-- The uniform block of the fragment shader.  `points` holds the first
`u_numPoints` filled slots of the fixed `u_points[250]` array (the render
loop iterates `i = 0 … 249` and breaks at `u_numPoints`, i.e. over
`points.take 250`). -/
structure FragUniforms where
  center : Geo
  zoom : ℝ
  viewportSize : ℝ × ℝ
  influenceRadius : ℝ
  falloffSteepness : ℝ
  points : List Pt3
  gradientColors : Fin 5 → ℝ × ℝ × ℝ
  gradientStops : Fin 5 → ℝ

/-- GLSL `clamp(x, lo, hi) = min(max(x, lo), hi)`. -/
noncomputable def glslClamp (x lo hi : ℝ) : ℝ := min (max x lo) hi

/-- Shader `getColor`: clamp to `[0, 1]`, then pick a gradient color by
the hardcoded thresholds `0.2 / 0.4 / 0.6 / 0.8`.  Note the body never
reads `u_gradientStops`. -/
noncomputable def getColor (u : FragUniforms) (value : ℝ) : ℝ × ℝ × ℝ :=
  let v := glslClamp value 0 1
  if v < 0.2 then u.gradientColors 0
  else if v < 0.4 then u.gradientColors 1
  else if v < 0.6 then u.gradientColors 2
  else if v < 0.8 then u.gradientColors 3
  else u.gradientColors 4

/-- The falloff expression of the shader's main loop, exactly as written:
`0.5 + 0.5 * cos(normalizedDist * 3.14159)`.  The literal `3.14159` is
what the source uses here (not the shader's own `PI` constant). -/
noncomputable def codeFalloff (normalizedDist : ℝ) : ℝ :=
  0.5 + 0.5 * Real.cos (normalizedDist * 3.14159)

/-- Modelled from the spec (§4.3) for comparison with `codeFalloff`:
`falloff = 0.5 + 0.5·cos(nd·π)` with the exact real `π`. -/
noncomputable def specFalloff (nd : ℝ) : ℝ :=
  0.5 + 0.5 * Real.cos (nd * Real.pi)

/-- One iteration of the shader's main loop for point `p`: the
`(totalInfluence, totalWeight)` increment.  Zero-value points are
skipped (`continue`), points at distance `≥ u_influenceRadius`
contribute nothing, otherwise
`normalizedDist = pow(distance / radius, steepness)`,
`influence = value * falloff`, `weight = falloff * falloff`, and the
increments are `influence * weight` and `weight`. -/
noncomputable def pointContrib (u : FragUniforms) (currentPos : Geo) (p : Pt3) :
    ℝ × ℝ :=
  if p.value = 0 then (0, 0)
  else
    let dist := haversineDistance currentPos ⟨p.lng, p.lat⟩
    if dist < u.influenceRadius then
      let normalizedDist := (dist / u.influenceRadius) ^ u.falloffSteepness
      let falloff := codeFalloff normalizedDist
      let influence := p.value * falloff
      let weight := falloff * falloff
      (influence * weight, weight)
    else (0, 0)

/-- The shader main loop's accumulated `(totalInfluence, totalWeight)`. -/
noncomputable def accumulate (u : FragUniforms) (currentPos : Geo) : ℝ × ℝ :=
  (u.points.take 250).foldl
    (fun acc p => (acc.1 + (pointContrib u currentPos p).1,
      acc.2 + (pointContrib u currentPos p).2)) (0, 0)

/-- The shader's `interpolatedValue` (the spec's `rawValue`):
`totalWeight > 0 ? (totalInfluence / totalWeight) * 1.15 : 0`. -/
noncomputable def interpolatedValue (u : FragUniforms) (currentPos : Geo) : ℝ :=
  if (accumulate u currentPos).2 > 0 then
    (accumulate u currentPos).1 / (accumulate u currentPos).2 * 1.15
  else 0

/-- Claim C9: `getColor` never reads the `u_gradientStops` uniform, so
replacing the configured stop thresholds by any other values changes
nothing about which color slot is selected. -/
theorem getColor_ignores_gradientStops (u : FragUniforms)
    (stops : Fin 5 → ℝ) (value : ℝ) :
    getColor { u with gradientStops := stops } value = getColor u value := rfl

/-- Clamping to `[0, 1]` is the identity on `[0, 1]`. -/
lemma glslClamp_of_mem (x : ℝ) (h0 : 0 ≤ x) (h1 : x ≤ 1) :
    glslClamp x 0 1 = x := by
  unfold glslClamp
  rw [max_eq_left h0, min_eq_left h1]

/-- Modelled from the spec (§4.4) for comparison with `getColor`:
clamp, then scan the ordered stop list and keep the color of the last
stop whose threshold is `≤` the clamped value. -/
noncomputable def specColorFor (stops : List (ℝ × (ℝ × ℝ × ℝ)))
    (dflt : ℝ × ℝ × ℝ) (value : ℝ) : ℝ × ℝ × ℝ :=
  let v := glslClamp value 0 1
  stops.foldl (fun acc s => if s.1 ≤ v then s.2 else acc) dflt

/-- Claim C6: `getColor` clamps to `[0, 1]` and agrees everywhere with
the spec's last-stop-`≤`-value scan over the default threshold list
`[0.0, 0.2, 0.4, 0.6, 0.8]`; in particular `getColor` at `0.19` equals
`getColor` at `0.0`, and `getColor` at `0.2` is the second band's color
(the boundary belongs to the upper band). -/
theorem getColor_step_function :
    (∀ (u : FragUniforms) (value : ℝ),
      getColor u value = specColorFor
        [(0, u.gradientColors 0), (0.2, u.gradientColors 1),
          (0.4, u.gradientColors 2), (0.6, u.gradientColors 3),
          (0.8, u.gradientColors 4)] (u.gradientColors 0) value) ∧
    (∀ u : FragUniforms, getColor u 0.19 = getColor u 0) ∧
    (∀ u : FragUniforms, getColor u 0.2 = u.gradientColors 1) := by
  refine ⟨?_, ?_, ?_⟩
  · intro u value
    have h0 : 0 ≤ glslClamp value 0 1 := le_min (le_max_right _ _) zero_le_one
    simp only [getColor, specColorFor, List.foldl_cons, List.foldl_nil]
    split_ifs <;> first | rfl | linarith
  · intro u
    have e1 : glslClamp 0.19 0 1 = 0.19 :=
      glslClamp_of_mem _ (by norm_num) (by norm_num)
    have e2 : glslClamp 0 0 1 = 0 := glslClamp_of_mem _ le_rfl zero_le_one
    simp only [getColor, e1, e2]
    norm_num
  · intro u
    have e3 : glslClamp 0.2 0 1 = 0.2 :=
      glslClamp_of_mem _ (by norm_num) (by norm_num)
    simp only [getColor, e3]
    norm_num

/-- The `continue` branch: a zero-value point contributes `(0, 0)`. -/
lemma pointContrib_zero_value (u : FragUniforms) (pos : Geo) (p : Pt3)
    (h : p.value = 0) : pointContrib u pos p = (0, 0) := by
  simp [pointContrib, h]

/-- The function `pointContrib` only reads `influenceRadius` and `falloffSteepness`
from the uniforms, so replacing the point list leaves it unchanged. -/
lemma pointContrib_points_irrel (u : FragUniforms) (pts : List Pt3)
    (pos : Geo) (p : Pt3) :
    pointContrib { u with points := pts } pos p = pointContrib u pos p := rfl

/-- Folding the loop body over a point list equals folding it over the
sublist of nonzero-value points, from any accumulator: skipped points
add `(0, 0)`. -/
lemma foldl_contrib_filter (u : FragUniforms) (pos : Geo) :
    ∀ (pts : List Pt3) (init : ℝ × ℝ),
      pts.foldl (fun acc p => (acc.1 + (pointContrib u pos p).1,
        acc.2 + (pointContrib u pos p).2)) init =
      (pts.filter (fun p => p.value ≠ 0)).foldl
        (fun acc p => (acc.1 + (pointContrib u pos p).1,
          acc.2 + (pointContrib u pos p).2)) init := by
  intro pts
  induction pts with
  | nil => intro init; rfl
  | cons p rest ih =>
    intro init
    by_cases h : p.value = 0
    · have hstep : (init.1 + (pointContrib u pos p).1,
          init.2 + (pointContrib u pos p).2) = init := by
        rw [pointContrib_zero_value u pos p h]
        simp
      have hfilter : (p :: rest).filter (fun q => q.value ≠ 0) =
          rest.filter (fun q => q.value ≠ 0) := by
        simp [List.filter_cons, h]
      rw [List.foldl_cons, hstep, hfilter]
      exact ih init
    · have hfilter : (p :: rest).filter (fun q => q.value ≠ 0) =
          p :: rest.filter (fun q => q.value ≠ 0) := by
        simp [List.filter_cons, h]
      rw [List.foldl_cons, hfilter, List.foldl_cons]
      exact ih _

/-- Claim C3: for any point set of valid size (at most 250 entries) and
any query location, removing all zero-value sample points leaves the
blended `rawValue` unchanged — such points contribute neither influence
nor weight. -/
theorem zero_value_points_dont_affect_rawValue (u : FragUniforms)
    (pos : Geo) (hlen : u.points.length ≤ 250) :
    interpolatedValue u pos =
      interpolatedValue
        { u with points := u.points.filter (fun p => p.value ≠ 0) } pos := by
  have htake : u.points.take 250 = u.points := List.take_of_length_le hlen
  have htake2 : (u.points.filter (fun p => p.value ≠ 0)).take 250 =
      u.points.filter (fun p => p.value ≠ 0) :=
    List.take_of_length_le (le_trans (List.length_filter_le _ _) hlen)
  have hacc :
      accumulate { u with points := u.points.filter (fun p => p.value ≠ 0) } pos =
        accumulate u pos := by
    unfold accumulate
    simp only [pointContrib_points_irrel]
    rw [htake, htake2]
    exact (foldl_contrib_filter u pos u.points (0, 0)).symm
  unfold interpolatedValue
  rw [hacc]

/-- Concrete instantiation of claim C3: a two-point set where the second
point has value `0` blends identically to the singleton set with the
zero point dropped. -/
theorem zero_value_points_dont_affect_rawValue_witness :
    interpolatedValue
      { center := ⟨10, 60⟩, zoom := 7, viewportSize := (800, 600),
        influenceRadius := 25, falloffSteepness := 1.8,
        points := [⟨10, 60, 0.5⟩, ⟨11, 61, 0⟩],
        gradientColors := fun _ => (0, 0, 0),
        gradientStops := fun _ => 0 } ⟨10, 60⟩ =
    interpolatedValue
      { center := ⟨10, 60⟩, zoom := 7, viewportSize := (800, 600),
        influenceRadius := 25, falloffSteepness := 1.8,
        points := ([⟨10, 60, 0.5⟩, ⟨11, 61, 0⟩] : List Pt3).filter
          (fun p => p.value ≠ 0),
        gradientColors := fun _ => (0, 0, 0),
        gradientStops := fun _ => 0 } ⟨10, 60⟩ :=
  zero_value_points_dont_affect_rawValue
    { center := ⟨10, 60⟩, zoom := 7, viewportSize := (800, 600),
      influenceRadius := 25, falloffSteepness := 1.8,
      points := [⟨10, 60, 0.5⟩, ⟨11, 61, 0⟩],
      gradientColors := fun _ => (0, 0, 0),
      gradientStops := fun _ => 0 } ⟨10, 60⟩ (by simp)

/-- Claim C5: with exactly one sample point of value `1` located at the
query position (distance `0`) and a positive radius, the weighted
average collapses and the boost gives `rawValue = 1·1.15 = 1.15 > 1`;
the downstream color lookup clamps it to `1` and selects the last
gradient band's color. -/
theorem single_point_rawValue_boost (u : FragUniforms) (pos : Geo)
    (hpts : u.points = [{ lng := pos.lng, lat := pos.lat, value := 1 }])
    (hr : 0 < u.influenceRadius) (hs : u.falloffSteepness ≠ 0) :
    interpolatedValue u pos = 1.15 ∧
    (1 : ℝ) < interpolatedValue u pos ∧
    glslClamp (interpolatedValue u pos) 0 1 = 1 ∧
    getColor u (interpolatedValue u pos) = u.gradientColors 4 := by
  have hd : haversineDistance pos ⟨pos.lng, pos.lat⟩ = 0 := haversine_self pos
  have hcontrib :
      pointContrib u pos { lng := pos.lng, lat := pos.lat, value := 1 } =
        (1, 1) := by
    unfold pointContrib
    dsimp only
    rw [if_neg (by norm_num : ¬(1 : ℝ) = 0), hd, if_pos hr, zero_div,
      Real.zero_rpow hs]
    unfold codeFalloff
    rw [zero_mul, Real.cos_zero]
    norm_num
  have hacc : accumulate u pos = (1, 1) := by
    unfold accumulate
    rw [hpts]
    simp [hcontrib]
  have hval : interpolatedValue u pos = 1.15 := by
    unfold interpolatedValue
    rw [hacc]
    norm_num
  have hclamp : glslClamp (1.15 : ℝ) 0 1 = 1 := by
    unfold glslClamp
    rw [max_eq_left (by norm_num), min_eq_right (by norm_num)]
  refine ⟨hval, by rw [hval]; norm_num, by rw [hval]; exact hclamp, ?_⟩
  rw [hval]
  simp only [getColor, hclamp]
  norm_num

/-- A concrete uniform block for the C5 witness: a single sample point
of value `1` at `(5, 60)`, default radius and steepness. -/
noncomputable def singlePointUniforms : FragUniforms :=
  { center := ⟨10.25, 59.75⟩, zoom := 7.5, viewportSize := (800, 600),
    influenceRadius := 25, falloffSteepness := 1.8,
    points := [{ lng := 5, lat := 60, value := 1 }],
    gradientColors := fun _ => (0, 0, 0), gradientStops := fun _ => 0 }

/-- Concrete instantiation of claim C5 at the point `(5, 60)`. -/
theorem single_point_rawValue_boost_witness :
    interpolatedValue singlePointUniforms ⟨5, 60⟩ = 1.15 ∧
    (1 : ℝ) < interpolatedValue singlePointUniforms ⟨5, 60⟩ ∧
    glslClamp (interpolatedValue singlePointUniforms ⟨5, 60⟩) 0 1 = 1 ∧
    getColor singlePointUniforms (interpolatedValue singlePointUniforms ⟨5, 60⟩) =
      singlePointUniforms.gradientColors 4 :=
  single_point_rawValue_boost singlePointUniforms ⟨5, 60⟩ rfl
    (by norm_num [singlePointUniforms]) (by norm_num [singlePointUniforms])

/-- At the radius edge (`normalizedDist = 1`) the code's falloff is
strictly positive: `cos 3.14159 > cos π = -1` because `3.14159 < π` and
the cosine is strictly decreasing on `[0, π]`. -/
lemma codeFalloff_one_pos : 0 < codeFalloff 1 := by
  unfold codeFalloff
  have h1 : Real.cos Real.pi < Real.cos ((1 : ℝ) * 3.14159) := by
    apply Real.cos_lt_cos_of_nonneg_of_le_pi (by norm_num) le_rfl
    have := Real.pi_gt_d6
    norm_num
    linarith
  rw [Real.cos_pi] at h1
  linarith

/-- At the radius edge the code's falloff, while nonzero, is below
`10⁻¹¹`: with `ε := π - 3.14159 < 3·10⁻⁶`, it equals
`(1 - cos ε)/2 ≤ ε²/4`. -/
lemma codeFalloff_one_small : codeFalloff 1 < 1 / 10 ^ 11 := by
  unfold codeFalloff
  have hε1 : Real.pi - 3.14159 < 0.000003 := by
    have := Real.pi_lt_d6
    linarith
  have hε0 : 0 < Real.pi - 3.14159 := by
    have := Real.pi_gt_d6
    linarith
  have hcos : Real.cos ((1 : ℝ) * 3.14159) =
      -Real.cos (Real.pi - 3.14159) := by
    rw [show (1 : ℝ) * 3.14159 = Real.pi - (Real.pi - 3.14159) by ring,
      Real.cos_pi_sub]
  rw [hcos]
  have hbound : 1 - (Real.pi - 3.14159) ^ 2 / 2 ≤ Real.cos (Real.pi - 3.14159) :=
    Real.one_sub_sq_div_two_le_cos
  have hsq : (Real.pi - 3.14159) ^ 2 < 0.000003 ^ 2 := by
    nlinarith
  nlinarith

/-- Claim C2 counterexample: concrete configuration (radius 45 km,
steepness 1, sample point across the antimeridian at distance
≈ 22.24 km, so `0 < d < influenceRadius`).  The code's falloff at the
resulting normalized distance differs from the spec's
`0.5 + 0.5·cos(nd·π)`, and at `nd = 1` the spec formula is exactly `0`
while the code's is not. -/
theorem falloff_exact_pi_counterexample :
    0 < haversineDistance ⟨179.9, 0⟩ ⟨-179.9, 0⟩ ∧
    haversineDistance ⟨179.9, 0⟩ ⟨-179.9, 0⟩ < 45 ∧
    codeFalloff ((haversineDistance ⟨179.9, 0⟩ ⟨-179.9, 0⟩ / 45) ^ (1 : ℝ)) ≠
      specFalloff ((haversineDistance ⟨179.9, 0⟩ ⟨-179.9, 0⟩ / 45) ^ (1 : ℝ)) ∧
    specFalloff 1 = 0 ∧ codeFalloff 1 ≠ 0 := by
  rw [haversine_antimeridian]
  have hd0 : (0 : ℝ) < 6371 * GLSL_PI / 900 := by norm_num [GLSL_PI]
  have hd45 : 6371 * GLSL_PI / 900 < 45 := by norm_num [GLSL_PI]
  refine ⟨hd0, hd45, ?_, ?_, ne_of_gt codeFalloff_one_pos⟩
  · rw [Real.rpow_one]
    have hnd0 : (0 : ℝ) < 6371 * GLSL_PI / 900 / 45 := by norm_num [GLSL_PI]
    have hnd1 : 6371 * GLSL_PI / 900 / 45 ≤ 1 := by norm_num [GLSL_PI]
    have hxy : 6371 * GLSL_PI / 900 / 45 * 3.14159 <
        6371 * GLSL_PI / 900 / 45 * Real.pi := by
      have := Real.pi_gt_d6
      nlinarith
    have hyp : 6371 * GLSL_PI / 900 / 45 * Real.pi ≤ Real.pi := by
      nlinarith [Real.pi_pos]
    have hcc : Real.cos (6371 * GLSL_PI / 900 / 45 * Real.pi) <
        Real.cos (6371 * GLSL_PI / 900 / 45 * 3.14159) :=
      Real.cos_lt_cos_of_nonneg_of_le_pi (by linarith) hyp hxy
    unfold codeFalloff specFalloff
    intro heq
    have : Real.cos (6371 * GLSL_PI / 900 / 45 * 3.14159) =
        Real.cos (6371 * GLSL_PI / 900 / 45 * Real.pi) := by linarith
    linarith
  · unfold specFalloff
    rw [one_mul, Real.cos_pi]
    norm_num

/-- Claim C2 (amended): inside the radius the point's contribution is
built from the falloff `0.5 + 0.5·cos(nd·3.14159)` — the hardcoded
approximation `3.14159`, not the exact `π` — so at `nd = 1` the falloff
is strictly positive (though below `10⁻¹¹`) rather than exactly zero;
the contribution at `d ≥ influenceRadius` is exactly zero because the
distance branch skips such points entirely. -/
theorem falloff_uses_glsl_pi_literal (u : FragUniforms) (pos : Geo) (p : Pt3)
    (hv : p.value ≠ 0)
    (h0 : 0 < haversineDistance pos ⟨p.lng, p.lat⟩)
    (hd : haversineDistance pos ⟨p.lng, p.lat⟩ < u.influenceRadius) :
    (pointContrib u pos p =
      (p.value *
        codeFalloff ((haversineDistance pos ⟨p.lng, p.lat⟩ /
            u.influenceRadius) ^ u.falloffSteepness) *
        (codeFalloff ((haversineDistance pos ⟨p.lng, p.lat⟩ /
            u.influenceRadius) ^ u.falloffSteepness) *
          codeFalloff ((haversineDistance pos ⟨p.lng, p.lat⟩ /
            u.influenceRadius) ^ u.falloffSteepness)),
        codeFalloff ((haversineDistance pos ⟨p.lng, p.lat⟩ /
            u.influenceRadius) ^ u.falloffSteepness) *
          codeFalloff ((haversineDistance pos ⟨p.lng, p.lat⟩ /
            u.influenceRadius) ^ u.falloffSteepness))) ∧
    0 < codeFalloff 1 ∧ codeFalloff 1 < 1 / 10 ^ 11 ∧
    (∀ q : Pt3, u.influenceRadius ≤ haversineDistance pos ⟨q.lng, q.lat⟩ →
      pointContrib u pos q = (0, 0)) := by
  refine ⟨?_, codeFalloff_one_pos, codeFalloff_one_small, ?_⟩
  · unfold pointContrib
    rw [if_neg hv, if_pos hd]
  · intro q hq
    simp only [pointContrib]
    split_ifs with h1 h2
    · rfl
    · exact absurd h2 (not_lt.mpr hq)
    · rfl

/-- A concrete uniform block for the C2 witness: radius 45 km,
steepness 1, one unit-value point across the antimeridian. -/
noncomputable def antimeridianUniforms : FragUniforms :=
  { center := ⟨0, 0⟩, zoom := 1, viewportSize := (800, 600),
    influenceRadius := 45, falloffSteepness := 1,
    points := [⟨-179.9, 0, 1⟩],
    gradientColors := fun _ => (0, 0, 0), gradientStops := fun _ => 0 }

/-- Concrete instantiation of the amended claim C2: the antimeridian
point lies at distance ≈ 22.24 km from `(179.9, 0)`, strictly between
`0` and the 45 km radius. -/
theorem falloff_uses_glsl_pi_literal_witness :
    (pointContrib antimeridianUniforms ⟨179.9, 0⟩ ⟨-179.9, 0, 1⟩ =
      ((⟨-179.9, 0, 1⟩ : Pt3).value *
        codeFalloff ((haversineDistance ⟨179.9, 0⟩
            ⟨(⟨-179.9, 0, 1⟩ : Pt3).lng, (⟨-179.9, 0, 1⟩ : Pt3).lat⟩ /
            antimeridianUniforms.influenceRadius) ^
            antimeridianUniforms.falloffSteepness) *
        (codeFalloff ((haversineDistance ⟨179.9, 0⟩
            ⟨(⟨-179.9, 0, 1⟩ : Pt3).lng, (⟨-179.9, 0, 1⟩ : Pt3).lat⟩ /
            antimeridianUniforms.influenceRadius) ^
            antimeridianUniforms.falloffSteepness) *
          codeFalloff ((haversineDistance ⟨179.9, 0⟩
            ⟨(⟨-179.9, 0, 1⟩ : Pt3).lng, (⟨-179.9, 0, 1⟩ : Pt3).lat⟩ /
            antimeridianUniforms.influenceRadius) ^
            antimeridianUniforms.falloffSteepness)),
        codeFalloff ((haversineDistance ⟨179.9, 0⟩
            ⟨(⟨-179.9, 0, 1⟩ : Pt3).lng, (⟨-179.9, 0, 1⟩ : Pt3).lat⟩ /
            antimeridianUniforms.influenceRadius) ^
            antimeridianUniforms.falloffSteepness) *
          codeFalloff ((haversineDistance ⟨179.9, 0⟩
            ⟨(⟨-179.9, 0, 1⟩ : Pt3).lng, (⟨-179.9, 0, 1⟩ : Pt3).lat⟩ /
            antimeridianUniforms.influenceRadius) ^
            antimeridianUniforms.falloffSteepness))) ∧
    0 < codeFalloff 1 ∧ codeFalloff 1 < 1 / 10 ^ 11 ∧
    (∀ q : Pt3,
      antimeridianUniforms.influenceRadius ≤
        haversineDistance ⟨179.9, 0⟩ ⟨q.lng, q.lat⟩ →
      pointContrib antimeridianUniforms ⟨179.9, 0⟩ q = (0, 0)) :=
  falloff_uses_glsl_pi_literal antimeridianUniforms ⟨179.9, 0⟩ ⟨-179.9, 0, 1⟩
    (by norm_num)
    (by show (0 : ℝ) < haversineDistance ⟨179.9, 0⟩ ⟨-179.9, 0⟩
        rw [haversine_antimeridian]; norm_num [GLSL_PI])
    (by show haversineDistance ⟨179.9, 0⟩ ⟨-179.9, 0⟩ < 45
        rw [haversine_antimeridian]; norm_num [GLSL_PI])

/-- Shape of `DEFAULT_CONFIG` from `src/js/config.js`. -/
structure Config where
  influenceRadius : ℝ
  falloffSteepness : ℝ
  resolution : ℕ
  minValue : ℝ
  maxValue : ℝ

/-- Constant `DEFAULT_CONFIG` from `src/js/config.js`. -/
noncomputable def DEFAULT_CONFIG : Config :=
  { influenceRadius := 25, falloffSteepness := 1.8, resolution := 512,
    minValue := 0, maxValue := 1 }

/-- A caller-supplied configuration object: any subset of the fields may
be present (absent fields fall back during the spread merge). -/
structure ConfigUpdate where
  influenceRadius : Option ℝ := none
  falloffSteepness : Option ℝ := none
  resolution : Option ℕ := none
  minValue : Option ℝ := none
  maxValue : Option ℝ := none

/-- The constructor's shallow spread merge
`{ ...DEFAULT_CONFIG, ...config }`. -/
def mergeConfig (base : Config) (upd : ConfigUpdate) : Config :=
  { influenceRadius := upd.influenceRadius.getD base.influenceRadius,
    falloffSteepness := upd.falloffSteepness.getD base.falloffSteepness,
    resolution := upd.resolution.getD base.resolution,
    minValue := upd.minValue.getD base.minValue,
    maxValue := upd.maxValue.getD base.maxValue }

/-- Constant `COLOR_GRADIENT` from `src/js/config.js`: five `(stop, RGB)` pairs. -/
noncomputable def COLOR_GRADIENT : List (ℝ × (ℝ × ℝ × ℝ)) :=
  [(0, (135, 206, 250)), (0.2, (100, 180, 230)), (0.4, (70, 130, 180)),
    (0.6, (30, 100, 200)), (0.8, (0, 60, 150))]

/-- The mutable state of a `PrecipitationLayer` instance.  The three
cached arrays are `none` until `prepareUniformData` first succeeds
(in JS they are `undefined` before that). -/
structure PrecipLayer where
  id : String
  points : List Pt3
  config : Config
  pointsArray : Option (List ℝ)
  gradientColors : Option (List ℝ)
  gradientStops : Option (List ℝ)

/-- The `PrecipitationLayer` constructor: stores `points` as given,
shallow-merges `config` over `DEFAULT_CONFIG`, and initializes the
caches to nothing.  Its body contains no validation and no `throw`. -/
noncomputable def mkPrecipitationLayer (id : String) (points : List Pt3)
    (config : ConfigUpdate) : PrecipLayer :=
  { id := id, points := points, config := mergeConfig DEFAULT_CONFIG config,
    pointsArray := none, gradientColors := none, gradientStops := none }

/-- The `forEach` filling `this.pointsArray`: `lng, lat, value` triples
flattened in order. -/
noncomputable def flattenPoints : List Pt3 → List ℝ
  | [] => []
  | p :: rest => p.lng :: p.lat :: p.value :: flattenPoints rest

/-- The `forEach` filling `this.gradientColors`: RGB components
flattened in order. -/
noncomputable def flattenColors : List (ℝ × (ℝ × ℝ × ℝ)) → List ℝ
  | [] => []
  | g :: rest => g.2.1 :: g.2.2.1 :: g.2.2.2 :: flattenColors rest

/-- Method `prepareUniformData`: the first statement validates the point count
and throws the `Maximum 250 data points supported` error when it
exceeds 250, touching nothing; otherwise the cached uniform arrays are
recomputed from `this.points` and `COLOR_GRADIENT`. -/
noncomputable def prepareUniformData (l : PrecipLayer) :
    Except String PrecipLayer :=
  if l.points.length > 250 then
    .error "Maximum 250 data points supported"
  else
    .ok { l with
            pointsArray := some (flattenPoints l.points),
            gradientColors := some (flattenColors COLOR_GRADIENT),
            gradientStops := some (COLOR_GRADIENT.map Prod.fst) }

/-- Method `updatePoints`: the JS method assigns `this.points = newPoints`
first and only then calls `prepareUniformData()`.  When the latter
throws, the exception propagates with the assignment already applied,
so the result is the post-call object state paired with the raised
error message, if any (`triggerRepaint` is external and stateless
here). -/
noncomputable def updatePoints (l : PrecipLayer) (newPoints : List Pt3) :
    PrecipLayer × Option String :=
  let l1 := { l with points := newPoints }
  match prepareUniformData l1 with
  | .error e => (l1, some e)
  | .ok l2 => (l2, none)

/-- Method `onAdd`: shader compilation and program linking are external GL
operations, modelled by two success flags; the corresponding failures
raise the two `onAdd` errors, and on success the method's final step is
`prepareUniformData()` (GL buffer setup is external state). -/
noncomputable def onAdd (shadersCompiled programLinked : Bool)
    (l : PrecipLayer) : Except String PrecipLayer :=
  if !shadersCompiled then
    .error "Failed to compile shaders for precipitation layer"
  else if !programLinked then
    .error "Failed to link shader program for precipitation layer"
  else prepareUniformData l

/-- The throwing branch of `prepareUniformData`. -/
lemma prepareUniformData_error (l : PrecipLayer) (h : l.points.length > 250) :
    prepareUniformData l = .error "Maximum 250 data points supported" := by
  unfold prepareUniformData
  rw [if_pos h]

/-- Evaluation of `updatePoints` on an oversized list: the points field
is already replaced when the validation throws, the caches are not. -/
lemma updatePoints_error (l : PrecipLayer) (newPoints : List Pt3)
    (h : newPoints.length > 250) :
    updatePoints l newPoints =
      ({ l with points := newPoints },
        some "Maximum 250 data points supported") := by
  simp only [updatePoints]
  rw [prepareUniformData_error _ (by simpa using h)]

/-- Claim C1 (evidence of the divergence): starting from a layer whose
committed point set is the singleton `[(10, 60, 0.5)]`, calling
`updatePoints` with 251 points raises the 250-cap error, but the
layer's point state after the failed call is the new 251-point list —
not the previous set, which the claim (and spec §7) require to be
retained — while the stale `pointsArray` cache is what remains. -/
theorem updatePoints_oversized_mutates_before_error :
    (updatePoints (mkPrecipitationLayer "precipitation-layer" [⟨10, 60, 0.5⟩] {})
        (List.replicate 251 ⟨0, 0, 0⟩)).2 =
      some "Maximum 250 data points supported" ∧
    (updatePoints (mkPrecipitationLayer "precipitation-layer" [⟨10, 60, 0.5⟩] {})
        (List.replicate 251 ⟨0, 0, 0⟩)).1.points =
      List.replicate 251 ⟨0, 0, 0⟩ ∧
    List.replicate 251 (⟨0, 0, 0⟩ : Pt3) ≠
      (mkPrecipitationLayer "precipitation-layer" [⟨10, 60, 0.5⟩] {}).points ∧
    (updatePoints (mkPrecipitationLayer "precipitation-layer" [⟨10, 60, 0.5⟩] {})
        (List.replicate 251 ⟨0, 0, 0⟩)).1.pointsArray =
      (mkPrecipitationLayer "precipitation-layer" [⟨10, 60, 0.5⟩] {}).pointsArray := by
  have hlen : (List.replicate 251 (⟨0, 0, 0⟩ : Pt3)).length > 250 := by
    rw [List.length_replicate]
    norm_num
  have hupd := updatePoints_error
    (mkPrecipitationLayer "precipitation-layer" [⟨10, 60, 0.5⟩] {})
    (List.replicate 251 ⟨0, 0, 0⟩) hlen
  refine ⟨?_, ?_, ?_, ?_⟩
  · rw [hupd]
  · rw [hupd]
  · intro h
    have hl := congrArg List.length h
    rw [List.length_replicate] at hl
    simp [mkPrecipitationLayer] at hl
  · rw [hupd]

/-- Claim C10: the constructor stores any point list unchanged and
cannot raise (the 250-point cap is not checked there); for an oversized
initial set the cap error surfaces at layer activation, when `onAdd`
reaches its `prepareUniformData` call — even with shader compilation
and program linking succeeding. -/
theorem constructor_defers_point_cap_validation (id : String)
    (pts : List Pt3) (cfg : ConfigUpdate) :
    (mkPrecipitationLayer id pts cfg).points = pts ∧
    (pts.length > 250 →
      onAdd true true (mkPrecipitationLayer id pts cfg) =
        .error "Maximum 250 data points supported") := by
  refine ⟨rfl, fun h => ?_⟩
  simp [onAdd, prepareUniformData, mkPrecipitationLayer, h]

/-- Concrete instantiation of claim C10 with a 251-point initial set:
construction succeeds (the stored list is the oversized one) and
`onAdd` then raises the cap error. -/
theorem constructor_defers_point_cap_validation_witness :
    (mkPrecipitationLayer "precipitation-layer"
        (List.replicate 251 ⟨0, 0, 0⟩) {}).points =
      List.replicate 251 ⟨0, 0, 0⟩ ∧
    onAdd true true (mkPrecipitationLayer "precipitation-layer"
        (List.replicate 251 ⟨0, 0, 0⟩) {}) =
      .error "Maximum 250 data points supported" :=
  ⟨(constructor_defers_point_cap_validation "precipitation-layer"
      (List.replicate 251 ⟨0, 0, 0⟩) {}).1,
    (constructor_defers_point_cap_validation "precipitation-layer"
      (List.replicate 251 ⟨0, 0, 0⟩) {}).2
      (by rw [List.length_replicate]; norm_num)⟩

end Precip
